import Mathlib

/-!
Shallow embedding of the Order/Payment Ledger Engine of MecatechDataBase
(`src/Functions/SalesManager/SalesManager.py` plus the inline restore handler
in `src/FrontEnd/ventas_app_simple.py`).

Modelling conventions:
* A CSV table is a `List` of row structures; `df.empty` is the empty list.
* Money amounts (`Precio_Unitario`, `Precio_Total`, `Monto_Pago`) are `ℚ`;
  Python's `round(x, 2)` is `round2`.  Quantities are `ℤ` (Python ints).
* `pandas.Series.str.extract(r'PED(\d+)')` uses search semantics (a match
  anywhere in the string); a row whose identifier has no match yields NaN and
  the subsequent `.astype(int)` raises, which the bare `except` turns into
  the default `"PED001"`/`"PAG001"`.  This is embedded by `searchNum`
  (leftmost occurrence of the prefix followed by at least one digit) and the
  all-or-nothing `parseAll`.
* The `try/except` around file writes is modelled by an explicit `ioOk : Bool`
  argument on the appending operations: `ioOk = false` is the branch where the
  write raises and the `except` returns `(False, msg)` with no mutation; the
  append itself is all-or-nothing.  Claims never depend on partially flushed
  appends.
* `get_client_pedidos`/`get_client_pagos` additionally sort by `Fecha`
  descending before returning; the sort is a permutation of the filtered rows
  and none of the verified properties depend on row order (they are about
  sums and membership), so the embedding keeps the filter order.
* Python's `str.lower` is `lowerStr` (ASCII lowercasing, identical to
  `str.lower` on the ASCII data the repository stores).
-/

/-- ASCII lowercase of one character. -/
def lowerChar (c : Char) : Char :=
  if 'A' ≤ c ∧ c ≤ 'Z' then Char.ofNat (c.toNat + 32) else c

/-- Python's `str.lower` on the ASCII names the repository stores. -/
def lowerStr (s : String) : String := String.mk (s.data.map lowerChar)

/-- One row of `pedidos.csv` (header in `_init_pedidos_csv`). -/
structure PedidoRow where
  fecha : String
  numeroPedido : String
  cliente : String
  codigoPieza : String
  nombrePieza : String
  precioUnitario : ℚ
  cantidad : ℤ
  precioTotal : ℚ
  estadoPedido : String
  comentarios : String
  estadoVisualizacion : String
  deriving Repr, DecidableEq

/-- One row of `pagos.csv` (header in `_init_pagos_csv`). -/
structure PagoRow where
  fecha : String
  numeroPago : String
  cliente : String
  numeroPedidoRef : String
  codigoPiezaRef : String
  montoPago : ℚ
  comentarios : String
  estadoVisualizacion : String
  deriving Repr, DecidableEq

/-- A product entry of `mecatech_database.json` as used by the manager:
`name`, `espanol` and `ARG.Sell_price`. -/
structure Product where
  name : String
  espanol : String
  sellPrice : ℚ
  deriving Repr, DecidableEq

/-- The read-only collaborators loaded in `__init__`: the client directory
(`clientes.json`) and the product catalog keyed by product code. -/
structure Env where
  clientes : List String
  products : List (String × Product)
  deriving Repr

/-- The two persisted tables. -/
structure DB where
  pedidos : List PedidoRow
  pagos : List PagoRow
  deriving Repr, DecidableEq

/-- `validate_client`: case-insensitive membership in the client directory. -/
def validateClient (env : Env) (clientName : String) : Bool :=
  (env.clientes.map (fun c => lowerStr c)).contains (lowerStr clientName)

/-- `validate_product_code`: key membership in the product catalog. -/
def validateProductCode (env : Env) (code : String) : Bool :=
  (env.products.map Prod.fst).contains code

/-- `get_product_info`. -/
def getProductInfo (env : Env) (code : String) : Option Product :=
  (env.products.lookup code)

/-- `get_product_display_name`: Spanish name preferred when non-blank,
English fallback, fixed text when the code does not resolve. -/
def getProductDisplayName (env : Env) (code : String) : String :=
  match getProductInfo env code with
  | none => "Producto no encontrado"
  | some p => if p.espanol ≠ "" ∧ p.espanol.trim ≠ "" then p.espanol else p.name

/-- Longest run of digits at the head of a character list (the `\d+` capture). -/
def leadDigits : List Char → List Char
  | [] => []
  | c :: cs => if c.isDigit then c :: leadDigits cs else []

/-- Numeric value of a digit list (what `.astype(int)` yields on the capture). -/
def natOfDigits (ds : List Char) : ℕ :=
  ds.foldl (fun n c => 10 * n + (c.toNat - '0'.toNat)) 0

/-- `re.search` semantics of `prefix(\d+)`: the number captured at the leftmost
position where the prefix is followed by at least one digit, `none` when no
position matches (pandas then produces NaN for that row). -/
def searchNum (pre : List Char) : List Char → Option ℕ
  | [] => none
  | c :: cs =>
    if pre.isPrefixOf (c :: cs) then
      let ds := leadDigits ((c :: cs).drop pre.length)
      if ds = [] then searchNum pre cs else some (natOfDigits ds)
    else searchNum pre cs

/-- Python's `f"{n:03d}"`. -/
def pad3 (n : ℕ) : String :=
  let s := toString n
  if s.length ≥ 3 then s else String.mk (List.replicate (3 - s.length) '0') ++ s

/-- The `.str.extract(...)[0].astype(int)` step: every identifier must yield
a capture; one failure (NaN) makes the whole conversion raise. -/
def parseAll (f : String → Option ℕ) : List String → Option (List ℕ)
  | [] => some []
  | s :: ss =>
    match f s, parseAll f ss with
    | some n, some ns => some (n :: ns)
    | _, _ => none

/-- Common body of `_get_next_pedido_number` / `_get_next_pago_number`:
empty table defaults to `pre ++ "001"`; otherwise extract `pre(\d+)` from every
identifier, and `max + 1` zero-padded.  A row with no match makes
`.astype(int)` raise on NaN, so the bare `except` also returns the default. -/
def nextIdFrom (pre : String) (ids : List String) : String :=
  if ids = [] then pre ++ "001"
  else
    match parseAll (fun s => searchNum pre.toList s.toList) ids with
    | none => pre ++ "001"
    | some ns => pre ++ pad3 (ns.foldl max 0 + 1)

/-- `_get_next_pedido_number`. -/
def nextPedidoNumber (pedidos : List PedidoRow) : String :=
  nextIdFrom "PED" (pedidos.map (fun r => r.numeroPedido))

/-- `_get_next_pago_number`. -/
def nextPagoNumber (pagos : List PagoRow) : String :=
  nextIdFrom "PAG" (pagos.map (fun r => r.numeroPago))

/-- One requested line of a multi-line order, the dict
`{codigo, cantidad, precio_unitario}` consumed by `add_pedido_multiple`. -/
structure Item where
  codigo : String
  cantidad : ℤ
  precioUnitario : ℚ
  deriving Repr, DecidableEq

/-- The row `add_pedido_multiple` builds for one surviving item. -/
def itemRow (env : Env) (fecha numeroPedido cliente comentarios : String)
    (it : Item) : PedidoRow :=
  { fecha := fecha
    numeroPedido := numeroPedido
    cliente := cliente
    codigoPieza := it.codigo
    nombrePieza := getProductDisplayName env it.codigo
    precioUnitario := it.precioUnitario
    cantidad := it.cantidad
    precioTotal := it.precioUnitario * (it.cantidad : ℚ)
    estadoPedido := "Pendiente"
    comentarios := comentarios
    estadoVisualizacion := "Visible" }

/-- `add_pedido` (single-line order).  The row it builds is exactly the row
`add_pedido_multiple` builds for one item, so it is expressed through
`itemRow`.  `ioOk = false` is the branch where the CSV append raises and the
`except` returns `(False, message)`. -/
def addPedido (env : Env) (db : DB) (cliente codigoPieza : String)
    (precioUnitario : ℚ) (comentarios : String) (cantidad : ℤ)
    (fecha : String) (ioOk : Bool) : (Bool × String) × DB :=
  if ¬ validateClient env cliente then ((false, "Cliente no existe"), db)
  else if ¬ validateProductCode env codigoPieza then
    ((false, "Código de producto no existe"), db)
  else
    let numeroPedido := nextPedidoNumber db.pedidos
    let row : PedidoRow := itemRow env fecha numeroPedido cliente comentarios
      { codigo := codigoPieza, cantidad := cantidad,
        precioUnitario := precioUnitario }
    if ioOk then ((true, numeroPedido), { db with pedidos := db.pedidos ++ [row] })
    else ((false, "io error"), db)

/-- The rows the `for item in items` loop of `add_pedido_multiple` collects:
items whose product code fails `validate_product_code` are skipped
(`continue`), the rest become rows under the shared order id. -/
def survivingRows (env : Env) (fecha numeroPedido cliente comentarios : String)
    (items : List Item) : List PedidoRow :=
  (items.filter (fun it => validateProductCode env it.codigo)).map
    (itemRow env fecha numeroPedido cliente comentarios)

/-- `add_pedido_multiple`: validate the client, allocate one order id,
skip items whose product code does not resolve, fail with
"No hay productos válidos" when none survive, otherwise append every
surviving row under the shared id. -/
def addPedidoMultiple (env : Env) (db : DB) (cliente : String)
    (items : List Item) (comentarios : String) (fecha : String)
    (ioOk : Bool) : (Bool × String) × DB :=
  if ¬ validateClient env cliente then ((false, "Cliente no existe"), db)
  else
    let numeroPedido := nextPedidoNumber db.pedidos
    let rows := survivingRows env fecha numeroPedido cliente comentarios items
    if rows = [] then ((false, "No hay productos válidos"), db)
    else if ioOk then
      ((true, numeroPedido), { db with pedidos := db.pedidos ++ rows })
    else ((false, "io error"), db)

/-- The row `add_pago` builds. -/
def pagoRow (fecha numeroPago cliente numeroPedidoRef codigoPiezaRef : String)
    (monto : ℚ) (comentarios : String) : PagoRow :=
  { fecha := fecha
    numeroPago := numeroPago
    cliente := cliente
    numeroPedidoRef := numeroPedidoRef
    codigoPiezaRef := codigoPiezaRef
    montoPago := monto
    comentarios := comentarios
    estadoVisualizacion := "Visible" }

/-- `add_pago`: validate the client, allocate a payment id, append one row.
The amount is written as given: the function performs no sign check. -/
def addPago (env : Env) (db : DB) (cliente : String) (monto : ℚ)
    (numeroPedidoRef codigoPiezaRef comentarios : String)
    (fecha : String) (ioOk : Bool) : (Bool × String) × DB :=
  if ¬ validateClient env cliente then ((false, "Cliente no existe"), db)
  else
    let numeroPago := nextPagoNumber db.pagos
    let row : PagoRow := pagoRow fecha numeroPago cliente numeroPedidoRef
      codigoPiezaRef monto comentarios
    if ioOk then ((true, numeroPago), { db with pagos := db.pagos ++ [row] })
    else ((false, "io error"), db)

/-- `add_pago_inmediato`: create the order, then pay
`sum(item['precio_unitario'] * item['cantidad'] for item in items)` —
summed over ALL requested items, not only those actually written — with
`order_ref` the fresh order id and `product_ref` the FIRST REQUESTED item's
code.  A failed order aborts with `(False, "", "")`; a failed payment returns
`(False, numero_pedido, "")` leaving the order rows in place. -/
def addPagoInmediato (env : Env) (db : DB) (cliente : String)
    (items : List Item) (comentarios : String) (fecha : String)
    (ioOkPedido ioOkPago : Bool) : (Bool × String × String) × DB :=
  let resPedido := addPedidoMultiple env db cliente items comentarios fecha ioOkPedido
  let db1 := resPedido.2
  let numeroPedido := resPedido.1.2
  if ¬ resPedido.1.1 then ((false, "", ""), db1)
  else
    let totalPedido :=
      (items.map (fun it => it.precioUnitario * (it.cantidad : ℚ))).sum
    let ref := match items with | [] => "" | it :: _ => it.codigo
    let resPago := addPago env db1 cliente totalPedido numeroPedido ref
      ("Pago inmediato - " ++ comentarios) fecha ioOkPago
    if resPago.1.1 then ((true, numeroPedido, resPago.1.2), resPago.2)
    else ((false, numeroPedido, ""), resPago.2)

/-- `get_client_pedidos`: filter by exact `Cliente` equality and, unless
`incluir_ocultos`, by `EstadoVisualizacion == 'Visible'` (sorting by date only
permutes the result and is not modelled). -/
def getClientPedidos (db : DB) (cliente : String)
    (incluirOcultos : Bool) : List PedidoRow :=
  (db.pedidos.filter (fun r => r.cliente = cliente)).filter
    (fun r => incluirOcultos || r.estadoVisualizacion = "Visible")

/-- `get_client_pagos`. -/
def getClientPagos (db : DB) (cliente : String)
    (incluirOcultos : Bool) : List PagoRow :=
  (db.pagos.filter (fun r => r.cliente = cliente)).filter
    (fun r => incluirOcultos || r.estadoVisualizacion = "Visible")

/-- Python's `round(x, 2)` on the exact rational value. -/
def round2 (q : ℚ) : ℚ := (round (100 * q) : ℤ) / 100

/-- `get_client_balance`: 2-decimal-rounded visible order total, visible
payment total and their difference, as the triple
`(total_deuda, total_pagos, balance)`. -/
def getClientBalance (db : DB) (cliente : String) : ℚ × ℚ × ℚ :=
  let totalDeuda := ((getClientPedidos db cliente false).map
    (fun r => r.precioTotal)).sum
  let totalPagos := ((getClientPagos db cliente false).map
    (fun r => r.montoPago)).sum
  (round2 totalDeuda, round2 totalPagos, round2 (totalDeuda - totalPagos))

/-- The per-row effect of `df.loc[mask, 'EstadoVisualizacion'] = 'Oculto'`. -/
def hidePedidoRow (numeroPedido : String) (r : PedidoRow) : PedidoRow :=
  if r.numeroPedido = numeroPedido
  then { r with estadoVisualizacion := "Oculto" } else r

/-- The per-row effect of `df.loc[mask, 'EstadoVisualizacion'] = 'Visible'`. -/
def showPedidoRow (numeroPedido : String) (r : PedidoRow) : PedidoRow :=
  if r.numeroPedido = numeroPedido
  then { r with estadoVisualizacion := "Visible" } else r

/-- `ocultar_pedido`: set `EstadoVisualizacion = 'Oculto'` on every row whose
`Numero_Pedido` matches; `False` on the empty table or when nothing matches. -/
def ocultarPedido (db : DB) (numeroPedido : String) : Bool × DB :=
  if db.pedidos = [] then (false, db)
  else if ¬ db.pedidos.any (fun r => r.numeroPedido = numeroPedido) then
    (false, db)
  else
    (true, { db with pedidos := db.pedidos.map (hidePedidoRow numeroPedido) })

/-- The per-row effect of hiding a payment. -/
def hidePagoRow (numeroPago : String) (p : PagoRow) : PagoRow :=
  if p.numeroPago = numeroPago
  then { p with estadoVisualizacion := "Oculto" } else p

/-- The per-row effect of restoring a payment. -/
def showPagoRow (numeroPago : String) (p : PagoRow) : PagoRow :=
  if p.numeroPago = numeroPago
  then { p with estadoVisualizacion := "Visible" } else p

/-- `ocultar_pago`. -/
def ocultarPago (db : DB) (numeroPago : String) : Bool × DB :=
  if db.pagos = [] then (false, db)
  else if ¬ db.pagos.any (fun r => r.numeroPago = numeroPago) then (false, db)
  else
    (true, { db with pagos := db.pagos.map (hidePagoRow numeroPago) })

/-- The inline "Mostrar" handler of `ventas_app_simple.py`: load the table,
set `EstadoVisualizacion = 'Visible'` on every row whose `Numero_Pedido`
matches, write the table back. -/
def mostrarPedido (db : DB) (numeroPedido : String) : DB :=
  { db with pedidos := db.pedidos.map (showPedidoRow numeroPedido) }

/-- The inline "Mostrar" handler for payments. -/
def mostrarPago (db : DB) (numeroPago : String) : DB :=
  { db with pagos := db.pagos.map (showPagoRow numeroPago) }

/-- `eliminar_pedido`: drop every row whose `Numero_Pedido` matches; `False`
when the table is empty or nothing matched. -/
def eliminarPedido (db : DB) (numeroPedido : String) : Bool × DB :=
  if db.pedidos = [] then (false, db)
  else
    let rest := db.pedidos.filter (fun r => ¬ r.numeroPedido = numeroPedido)
    if rest.length = db.pedidos.length then (false, db)
    else (true, { db with pedidos := rest })

/-- `eliminar_pago`. -/
def eliminarPago (db : DB) (numeroPago : String) : Bool × DB :=
  if db.pagos = [] then (false, db)
  else
    let rest := db.pagos.filter (fun r => ¬ r.numeroPago = numeroPago)
    if rest.length = db.pagos.length then (false, db)
    else (true, { db with pagos := rest })

/-! ### Basic facts about the operations -/

lemma addPago_of_valid (env : Env) (db : DB) (cliente : String) (monto : ℚ)
    (r1 r2 com fecha : String) (h : validateClient env cliente = true) :
    addPago env db cliente monto r1 r2 com fecha true =
      ((true, nextPagoNumber db.pagos),
       { db with pagos := db.pagos ++
          [pagoRow fecha (nextPagoNumber db.pagos) cliente r1 r2 monto com] }) := by
  simp [addPago, h]

lemma addPago_of_invalid (env : Env) (db : DB) (cliente : String) (monto : ℚ)
    (r1 r2 com fecha : String) (ok : Bool)
    (h : validateClient env cliente = false) :
    addPago env db cliente monto r1 r2 com fecha ok =
      ((false, "Cliente no existe"), db) := by
  simp [addPago, h]

lemma addPago_of_ioFail (env : Env) (db : DB) (cliente : String) (monto : ℚ)
    (r1 r2 com fecha : String) (h : validateClient env cliente = true) :
    addPago env db cliente monto r1 r2 com fecha false =
      ((false, "io error"), db) := by
  simp [addPago, h]

lemma addPedidoMultiple_of_invalid (env : Env) (db : DB) (cliente : String)
    (items : List Item) (com fecha : String) (ok : Bool)
    (h : validateClient env cliente = false) :
    addPedidoMultiple env db cliente items com fecha ok =
      ((false, "Cliente no existe"), db) := by
  simp [addPedidoMultiple, h]

lemma addPedidoMultiple_of_noValid (env : Env) (db : DB) (cliente : String)
    (items : List Item) (com fecha : String) (ok : Bool)
    (hc : validateClient env cliente = true)
    (h : survivingRows env fecha (nextPedidoNumber db.pedidos) cliente com
      items = []) :
    addPedidoMultiple env db cliente items com fecha ok =
      ((false, "No hay productos válidos"), db) := by
  simp [addPedidoMultiple, hc, h]

lemma addPedidoMultiple_of_valid (env : Env) (db : DB) (cliente : String)
    (items : List Item) (com fecha : String)
    (hc : validateClient env cliente = true)
    (h : survivingRows env fecha (nextPedidoNumber db.pedidos) cliente com
      items ≠ []) :
    addPedidoMultiple env db cliente items com fecha true =
      ((true, nextPedidoNumber db.pedidos),
       { db with pedidos := db.pedidos ++
          (survivingRows env fecha (nextPedidoNumber db.pedidos) cliente com
            items) }) := by
  simp [addPedidoMultiple, hc, h]

lemma addPedidoMultiple_fail_state (env : Env) (db : DB) (cliente : String)
    (items : List Item) (com fecha : String) (ok : Bool)
    (h : (addPedidoMultiple env db cliente items com fecha ok).1.1 = false) :
    (addPedidoMultiple env db cliente items com fecha ok).2 = db := by
  by_cases hc : validateClient env cliente = true
  · by_cases hr : survivingRows env fecha (nextPedidoNumber db.pedidos)
        cliente com items = []
    · simp [addPedidoMultiple, hc, hr]
    · cases ok with
      | false => simp [addPedidoMultiple, hc, hr]
      | true => rw [addPedidoMultiple_of_valid env db cliente items com fecha
          hc hr] at h; simp at h
  · simp [addPedidoMultiple, hc]

lemma addPedidoMultiple_succ (env : Env) (db : DB) (cliente : String)
    (items : List Item) (com fecha : String) (ok : Bool)
    (h : (addPedidoMultiple env db cliente items com fecha ok).1.1 = true) :
    validateClient env cliente = true ∧ ok = true ∧
    survivingRows env fecha (nextPedidoNumber db.pedidos) cliente com
      items ≠ [] ∧
    addPedidoMultiple env db cliente items com fecha ok =
      ((true, nextPedidoNumber db.pedidos),
       { db with pedidos := db.pedidos ++
          (survivingRows env fecha (nextPedidoNumber db.pedidos) cliente com
            items) }) := by
  by_cases hc : validateClient env cliente = true
  · by_cases hr : survivingRows env fecha (nextPedidoNumber db.pedidos)
        cliente com items = []
    · exfalso; simp [addPedidoMultiple, hc, hr] at h
    · cases ok with
      | false => exfalso; simp [addPedidoMultiple, hc, hr] at h
      | true => exact ⟨hc, rfl, hr,
          addPedidoMultiple_of_valid env db cliente items com fecha hc hr⟩
  · exfalso; simp [addPedidoMultiple, hc] at h


/-! ### Concrete data used by witnesses and counterexamples -/

/-- A collaborator environment with one client and one catalog product. -/
def envAna : Env :=
  { clientes := ["Ana"],
    products := [("X1", { name := "Part", espanol := "", sellPrice := 10 })] }

/-- Both tables empty. -/
def dbEmpty : DB := { pedidos := [], pagos := [] }

/-! ### C1 — payment amount validation -/

/-- C1 counterexample: `add_pago` called with the non-positive amount `0` for
the valid customer "Ana" does NOT fail: it returns success and appends one
payment row carrying amount `0`, so the call neither fails with
`InvalidAmount` nor leaves the payments table unwritten. -/
theorem c1_counterexample :
    ¬ ((0:ℚ) > 0) ∧
    (addPago envAna dbEmpty "Ana" 0 "" "" "" "2024-01-01" true).1.1 = true ∧
    (addPago envAna dbEmpty "Ana" 0 "" "" "" "2024-01-01" true).2.pagos.length
      = 1 ∧
    ((addPago envAna dbEmpty "Ana" 0 "" "" "" "2024-01-01"
      true).2.pagos.map (fun r => r.montoPago)) = [0] := by
  refine ⟨by norm_num, by decide, by decide, by decide⟩

/-- C1 (amended): `add_pago` performs no amount check at all: for every
amount, positive or not, a call with a valid customer succeeds and appends
exactly one payment row carrying that amount (the valid-customer/one-row half
of the original claim; the `InvalidAmount` rejection does not exist in the
code). -/
theorem c1_no_amount_validation (env : Env) (db : DB) (cliente : String)
    (monto : ℚ) (r1 r2 com fecha : String)
    (h : validateClient env cliente = true) :
    (addPago env db cliente monto r1 r2 com fecha true).1.1 = true ∧
    (addPago env db cliente monto r1 r2 com fecha true).2.pagos =
      db.pagos ++
        [pagoRow fecha (nextPagoNumber db.pagos) cliente r1 r2 monto com] := by
  rw [addPago_of_valid env db cliente monto r1 r2 com fecha h]
  exact ⟨rfl, rfl⟩

/-- C1 witness: the amended theorem applied to the valid customer "Ana" and
the negative amount `-5`. -/
theorem c1_witness :
    validateClient envAna "Ana" = true ∧
    ((addPago envAna dbEmpty "Ana" (-5) "" "" "" "f" true).1.1 = true ∧
     (addPago envAna dbEmpty "Ana" (-5) "" "" "" "f" true).2.pagos =
       dbEmpty.pagos ++
         [pagoRow "f" (nextPagoNumber dbEmpty.pagos) "Ana" "" "" (-5) ""]) :=
  ⟨by decide,
   c1_no_amount_validation envAna dbEmpty "Ana" (-5) "" "" "" "f" (by decide)⟩

/-! ### C7 — unknown client leaves both tables unchanged -/

/-- C7: a `create_order` call (`add_pedido_multiple`) whose customer fails
`validate_client` returns the `"Cliente no existe"` failure and returns the
state unchanged, so the row counts of both the orders table and the payments
table are identical before and after. -/
theorem c7_unknown_client (env : Env) (db : DB) (cliente : String)
    (items : List Item) (com fecha : String) (ok : Bool)
    (h : validateClient env cliente = false) :
    addPedidoMultiple env db cliente items com fecha ok =
      ((false, "Cliente no existe"), db) ∧
    (addPedidoMultiple env db cliente items com fecha ok).2.pedidos.length =
      db.pedidos.length ∧
    (addPedidoMultiple env db cliente items com fecha ok).2.pagos.length =
      db.pagos.length := by
  have e := addPedidoMultiple_of_invalid env db cliente items com fecha ok h
  exact ⟨e, by rw [e], by rw [e]⟩

/-- C7 witness: the unknown customer "Bob" against the directory `["Ana"]`. -/
theorem c7_witness :
    validateClient envAna "Bob" = false ∧
    (addPedidoMultiple envAna dbEmpty "Bob" [⟨"X1", 1, 10⟩] "" "f" true =
       ((false, "Cliente no existe"), dbEmpty) ∧
     (addPedidoMultiple envAna dbEmpty "Bob" [⟨"X1", 1, 10⟩] "" "f"
       true).2.pedidos.length = dbEmpty.pedidos.length ∧
     (addPedidoMultiple envAna dbEmpty "Bob" [⟨"X1", 1, 10⟩] "" "f"
       true).2.pagos.length = dbEmpty.pagos.length) :=
  ⟨by decide,
   c7_unknown_client envAna dbEmpty "Bob" [⟨"X1", 1, 10⟩] "" "f" true
     (by decide)⟩

/-! ### C6 — skipping of unresolvable lines -/

/-- C6: for a valid customer, `add_pedido_multiple` skips every line whose
product code does not resolve (`survivingRows` filters by
`validate_product_code`); if no line survives the call fails with
"No hay productos válidos" and writes nothing, otherwise exactly the
surviving lines are appended, all carrying the one freshly allocated order id
and each with `Precio_Total = Precio_Unitario * Cantidad`. -/
theorem c6_skip_invalid_lines (env : Env) (db : DB) (cliente : String)
    (items : List Item) (com fecha : String)
    (hc : validateClient env cliente = true) :
    (survivingRows env fecha (nextPedidoNumber db.pedidos) cliente com items
        = [] →
      addPedidoMultiple env db cliente items com fecha true =
        ((false, "No hay productos válidos"), db)) ∧
    (survivingRows env fecha (nextPedidoNumber db.pedidos) cliente com items
        ≠ [] →
      addPedidoMultiple env db cliente items com fecha true =
        ((true, nextPedidoNumber db.pedidos),
         { db with pedidos := db.pedidos ++
            (survivingRows env fecha (nextPedidoNumber db.pedidos) cliente com
              items) }) ∧
      ∀ r ∈ survivingRows env fecha (nextPedidoNumber db.pedidos) cliente com
          items,
        r.numeroPedido = nextPedidoNumber db.pedidos ∧
        r.precioTotal = r.precioUnitario * (r.cantidad : ℚ)) := by
  constructor
  · intro h
    exact addPedidoMultiple_of_noValid env db cliente items com fecha true hc h
  · intro h
    refine ⟨addPedidoMultiple_of_valid env db cliente items com fecha hc h,
      ?_⟩
    intro r hr
    rw [survivingRows, List.mem_map] at hr
    obtain ⟨it, -, rfl⟩ := hr
    exact ⟨rfl, rfl⟩

/-- C6 witness: the request `[VALID "X1", GHOST]` for "Ana": "GHOST" is
skipped, one line survives. -/
theorem c6_witness :
    validateClient envAna "Ana" = true ∧
    (survivingRows envAna "f" (nextPedidoNumber dbEmpty.pedidos) "Ana" ""
        [⟨"X1", 2, 10⟩, ⟨"GHOST", 1, 5⟩] ≠ [] →
      addPedidoMultiple envAna dbEmpty "Ana" [⟨"X1", 2, 10⟩, ⟨"GHOST", 1, 5⟩]
          "" "f" true =
        ((true, nextPedidoNumber dbEmpty.pedidos),
         { dbEmpty with pedidos := dbEmpty.pedidos ++
            (survivingRows envAna "f" (nextPedidoNumber dbEmpty.pedidos) "Ana"
              "" [⟨"X1", 2, 10⟩, ⟨"GHOST", 1, 5⟩]) }) ∧
      ∀ r ∈ survivingRows envAna "f" (nextPedidoNumber dbEmpty.pedidos) "Ana"
          "" [⟨"X1", 2, 10⟩, ⟨"GHOST", 1, 5⟩],
        r.numeroPedido = nextPedidoNumber dbEmpty.pedidos ∧
        r.precioTotal = r.precioUnitario * (r.cantidad : ℚ)) :=
  ⟨by decide,
   (c6_skip_invalid_lines envAna dbEmpty "Ana" [⟨"X1", 2, 10⟩, ⟨"GHOST", 1, 5⟩]
     "" "f" (by decide)).2⟩

lemma addPago_succ (env : Env) (db : DB) (cliente : String) (monto : ℚ)
    (r1 r2 com fecha : String) (ok : Bool)
    (h : (addPago env db cliente monto r1 r2 com fecha ok).1.1 = true) :
    validateClient env cliente = true ∧ ok = true ∧
    addPago env db cliente monto r1 r2 com fecha ok =
      ((true, nextPagoNumber db.pagos),
       { db with pagos := db.pagos ++
          [pagoRow fecha (nextPagoNumber db.pagos) cliente r1 r2 monto
            com] }) := by
  by_cases hc : validateClient env cliente = true
  · cases ok with
    | false => exfalso; simp [addPago, hc] at h
    | true => exact ⟨hc, rfl, addPago_of_valid env db cliente monto r1 r2 com
        fecha hc⟩
  · exfalso; simp [addPago, hc] at h

/-! ### C8 — failure modes of the composite immediate-payment call -/

/-- C8: in `add_pago_inmediato`, (i) if the inner order creation fails the
whole call returns `(False, "", "")` with the state unchanged, so no payment
row is written; (ii) if the order succeeds and the subsequent payment append
fails, the call returns `(False, numero_pedido, "")` — the report carries the
already-created order id, which is the freshly allocated
`nextPedidoNumber` — the persisted order rows are kept (no rollback) and the
payments table is untouched. -/
theorem c8_partial_failure (env : Env) (db : DB) (cliente : String)
    (items : List Item) (com fecha : String) (okPed okPag : Bool) :
    ((addPedidoMultiple env db cliente items com fecha okPed).1.1 = false →
      addPagoInmediato env db cliente items com fecha okPed okPag =
        ((false, "", ""), db)) ∧
    ((addPedidoMultiple env db cliente items com fecha okPed).1.1 = true →
      addPagoInmediato env db cliente items com fecha okPed false =
        ((false, nextPedidoNumber db.pedidos, ""),
         (addPedidoMultiple env db cliente items com fecha okPed).2) ∧
      (addPedidoMultiple env db cliente items com fecha okPed).2.pagos =
        db.pagos ∧
      (addPedidoMultiple env db cliente items com fecha okPed).2.pedidos =
        db.pedidos ++
          (survivingRows env fecha (nextPedidoNumber db.pedidos) cliente com
            items)) := by
  constructor
  · intro h
    have hst := addPedidoMultiple_fail_state env db cliente items com fecha
      okPed h
    simp [addPagoInmediato, h, hst]
  · intro h
    obtain ⟨hc, hok, hne, e⟩ := addPedidoMultiple_succ env db cliente items
      com fecha okPed h
    refine ⟨?_, by rw [e], by rw [e]⟩
    simp [addPagoInmediato, e, addPago, hc]

/-- C8 witness: part (i) at an unknown customer, part (ii) at a valid order
whose payment append fails. -/
theorem c8_witness :
    (addPagoInmediato envAna dbEmpty "Bob" [⟨"X1", 1, 10⟩] "" "f" true true =
       ((false, "", ""), dbEmpty)) ∧
    (addPagoInmediato envAna dbEmpty "Ana" [⟨"X1", 1, 10⟩] "" "f" true false =
       ((false, nextPedidoNumber dbEmpty.pedidos, ""),
        (addPedidoMultiple envAna dbEmpty "Ana" [⟨"X1", 1, 10⟩] "" "f"
          true).2) ∧
     (addPedidoMultiple envAna dbEmpty "Ana" [⟨"X1", 1, 10⟩] "" "f"
       true).2.pagos = dbEmpty.pagos ∧
     (addPedidoMultiple envAna dbEmpty "Ana" [⟨"X1", 1, 10⟩] "" "f"
       true).2.pedidos = dbEmpty.pedidos ++
         (survivingRows envAna "f" (nextPedidoNumber dbEmpty.pedidos) "Ana" ""
           [⟨"X1", 1, 10⟩])) :=
  ⟨(c8_partial_failure envAna dbEmpty "Bob" [⟨"X1", 1, 10⟩] "" "f" true
      true).1 (by decide),
   (c8_partial_failure envAna dbEmpty "Ana" [⟨"X1", 1, 10⟩] "" "f" true
      false).2 (by decide)⟩

/-! ### C2 — amount and product reference of the immediate payment -/

/-- A request whose first item does not resolve in the catalog of `envAna`
while its second does. -/
def itemsGhostFirst : List Item := [⟨"GHOST", 1, 5⟩, ⟨"X1", 2, 10⟩]

/-- C2 counterexample: for the request `[GHOST(1×5), X1(2×10)]` the call
succeeds creating only the X1 line (total 20), yet the payment amount is 25
(the sum over ALL requested items, skipped ones included) and its
`product_ref` is "GHOST", the skipped first item's code, not the first
created line's code "X1". -/
theorem c2_counterexample :
    (addPagoInmediato envAna dbEmpty "Ana" itemsGhostFirst "" "f" true
      true).1.1 = true ∧
    ((addPagoInmediato envAna dbEmpty "Ana" itemsGhostFirst "" "f" true
      true).2.pagos.map (fun r => r.montoPago)) = [25] ∧
    (((addPagoInmediato envAna dbEmpty "Ana" itemsGhostFirst "" "f" true
      true).2.pedidos.map (fun r => r.precioTotal)).sum) = 20 ∧
    (25 : ℚ) ≠ 20 ∧
    ((addPagoInmediato envAna dbEmpty "Ana" itemsGhostFirst "" "f" true
      true).2.pagos.map (fun r => r.codigoPiezaRef)) = ["GHOST"] ∧
    ((addPagoInmediato envAna dbEmpty "Ana" itemsGhostFirst "" "f" true
      true).2.pedidos.map (fun r => r.codigoPieza)) = ["X1"] ∧
    "GHOST" ≠ "X1" := by
  refine ⟨by decide, ?_, ?_, by norm_num, by decide, by decide, by decide⟩
  · simp [addPagoInmediato, addPedidoMultiple, addPago, validateClient,
      validateProductCode, lowerStr, lowerChar, nextPagoNumber,
      nextPedidoNumber, nextIdFrom, searchNum, itemRow, survivingRows,
      getProductDisplayName, getProductInfo, envAna, dbEmpty, itemsGhostFirst,
      pagoRow]
    norm_num
  · simp [addPagoInmediato, addPedidoMultiple, addPago, validateClient,
      validateProductCode, lowerStr, lowerChar, nextPagoNumber,
      nextPedidoNumber, nextIdFrom, searchNum, itemRow, survivingRows,
      getProductDisplayName, getProductInfo, envAna, dbEmpty, itemsGhostFirst,
      pagoRow]
    norm_num

/-- C2 (amended): for every successful `add_pago_inmediato` call, the created
payment's amount equals the sum of `precio_unitario * cantidad` over ALL
requested items — including the items dropped during catalog resolution, not
only the created lines — its `order_ref` equals the newly returned order id
and its `product_ref` equals the first REQUESTED item's product code. -/
theorem c2_payment_totals_requested_items (env : Env) (db : DB)
    (cliente : String) (items : List Item) (com fecha : String)
    (okPed okPag : Bool)
    (h : (addPagoInmediato env db cliente items com fecha okPed okPag).1.1 =
      true) :
    (addPagoInmediato env db cliente items com fecha okPed okPag).1.2.1 =
      nextPedidoNumber db.pedidos ∧
    (addPagoInmediato env db cliente items com fecha okPed okPag).2.pagos =
      db.pagos ++
        [pagoRow fecha (nextPagoNumber db.pagos) cliente
          (nextPedidoNumber db.pedidos)
          (match items with | [] => "" | it :: _ => it.codigo)
          ((items.map (fun it => it.precioUnitario * (it.cantidad : ℚ))).sum)
          ("Pago inmediato - " ++ com)] := by
  by_cases hPed :
      (addPedidoMultiple env db cliente items com fecha okPed).1.1 = true
  · obtain ⟨hc, hok, hne, e⟩ := addPedidoMultiple_succ env db cliente items
      com fecha okPed hPed
    cases okPag with
    | false => exfalso; simp [addPagoInmediato, e, addPago, hc] at h
    | true =>
      refine ⟨by simp [addPagoInmediato, e, addPago, hc], ?_⟩
      cases items with
      | nil => exact absurd rfl hne
      | cons it its => simp [addPagoInmediato, e, addPago, hc]
  · exfalso
    have hf : (addPedidoMultiple env db cliente items com fecha okPed).1.1 =
        false := by
      revert hPed
      cases (addPedidoMultiple env db cliente items com fecha okPed).1.1 <;>
        simp
    simp [addPagoInmediato, hf] at h

/-- C2 witness: the amended theorem applied to the `[GHOST, X1]` request for
"Ana" (payment of 25 covering also the skipped item). -/
theorem c2_witness :
    (addPagoInmediato envAna dbEmpty "Ana" itemsGhostFirst "" "f" true
      true).1.1 = true ∧
    ((addPagoInmediato envAna dbEmpty "Ana" itemsGhostFirst "" "f" true
      true).1.2.1 = nextPedidoNumber dbEmpty.pedidos ∧
     (addPagoInmediato envAna dbEmpty "Ana" itemsGhostFirst "" "f" true
       true).2.pagos = dbEmpty.pagos ++
         [pagoRow "f" (nextPagoNumber dbEmpty.pagos) "Ana"
           (nextPedidoNumber dbEmpty.pedidos)
           (match itemsGhostFirst with | [] => "" | it :: _ => it.codigo)
           ((itemsGhostFirst.map
             (fun it => it.precioUnitario * (it.cantidad : ℚ))).sum)
           ("Pago inmediato - " ++ "")]) :=
  ⟨by decide,
   c2_payment_totals_requested_items envAna dbEmpty "Ana" itemsGhostFirst ""
     "f" true true (by decide)⟩

/-! ### C3 — identifier issuance after hard deletes -/

/-- A stored order row numbered PED007. -/
def rowPED007 : PedidoRow :=
  { fecha := "f"
    numeroPedido := "PED007"
    cliente := "Ana"
    codigoPieza := "X1"
    nombrePieza := "Part"
    precioUnitario := 10
    cantidad := 1
    precioTotal := 10
    estadoPedido := "Pendiente"
    comentarios := ""
    estadoVisualizacion := "Visible" }

/-- A table holding the single order PED007. -/
def dbPED7 : DB := { pedidos := [rowPED007], pagos := [] }

/-- C3 counterexample: identifier issuance does shrink after a hard delete.
(i) Creating an order issues PED001; hard-deleting it and creating again
re-issues PED001, an id equal to the largest ever issued.  (ii) With PED007
in the table, hard-deleting PED007 makes the next creation issue PED001 — a
numerically smaller id than ids already issued. -/
theorem c3_counterexample :
    ((addPedidoMultiple envAna dbEmpty "Ana" [⟨"X1", 1, 10⟩] "" "f"
      true).1 = (true, "PED001") ∧
     (eliminarPedido (addPedidoMultiple envAna dbEmpty "Ana" [⟨"X1", 1, 10⟩]
       "" "f" true).2 "PED001").1 = true ∧
     (addPedidoMultiple envAna
       (eliminarPedido (addPedidoMultiple envAna dbEmpty "Ana" [⟨"X1", 1, 10⟩]
         "" "f" true).2 "PED001").2
       "Ana" [⟨"X1", 1, 10⟩] "" "f" true).1 = (true, "PED001")) ∧
    ((eliminarPedido dbPED7 "PED007").1 = true ∧
     (addPedidoMultiple envAna (eliminarPedido dbPED7 "PED007").2 "Ana"
       [⟨"X1", 1, 10⟩] "" "f" true).1 = (true, "PED001")) := by
  refine ⟨⟨by decide, by decide, by decide⟩, by decide, by decide⟩

lemma le_foldl_max_init (l : List ℕ) (a : ℕ) : a ≤ l.foldl max a := by
  induction l generalizing a with
  | nil => simp
  | cons b bs ih =>
    exact le_trans (le_max_left a b) (by simpa using ih (max a b))

lemma mem_le_foldl_max (l : List ℕ) (a n : ℕ) (hn : n ∈ l) :
    n ≤ l.foldl max a := by
  induction l generalizing a with
  | nil => cases hn
  | cons b bs ih =>
    rcases List.mem_cons.1 hn with h | h
    · subst h
      exact le_trans (le_max_right a n) (le_foldl_max_init bs (max a n))
    · simpa using ih (max a b) h

lemma nextIdFrom_of_parse (pre : String) (ids : List String) (ns : List ℕ)
    (h : parseAll (fun s => searchNum pre.toList s.toList) ids = some ns) :
    nextIdFrom pre ids = pre ++ pad3 (ns.foldl max 0 + 1) := by
  cases ids with
  | nil =>
    obtain rfl : ns = [] := by simpa [parseAll] using h.symm
    have hp : pad3 (List.foldl max 0 ([] : List ℕ) + 1) = "001" := rfl
    rw [nextIdFrom, hp]
    simp
  | cons i is =>
    rw [nextIdFrom, if_neg (by simp), h]

/-- C3 (amended): the order id issued by a valid creation is strictly greater
(numerically) than every order number present in the table AT THAT MOMENT —
provided every stored identifier yields a `PED(\d+)` match — namely it is
`PED` `pad3 (max + 1)`.  Monotonicity is only relative to the current table
contents: as the counterexample shows, hard-deleting the maximal order makes
earlier numbers, PED004 included, re-issuable. -/
theorem c3_greater_than_current_table (env : Env) (db : DB) (cliente : String)
    (items : List Item) (com fecha : String) (ok : Bool) (ns : List ℕ)
    (hparse : parseAll (fun s => searchNum "PED".toList s.toList)
      (db.pedidos.map (fun r => r.numeroPedido)) = some ns)
    (hsucc : (addPedidoMultiple env db cliente items com fecha ok).1.1 =
      true) :
    (addPedidoMultiple env db cliente items com fecha ok).1.2 =
      "PED" ++ pad3 (ns.foldl max 0 + 1) ∧
    ∀ n ∈ ns, n < ns.foldl max 0 + 1 := by
  obtain ⟨-, -, -, e⟩ := addPedidoMultiple_succ env db cliente items com fecha
    ok hsucc
  constructor
  · rw [e]
    show nextPedidoNumber db.pedidos = _
    rw [nextPedidoNumber, nextIdFrom_of_parse "PED" _ ns hparse]
  · intro n hn
    exact Nat.lt_succ_of_le (mem_le_foldl_max ns 0 n hn)

/-- C3 witness: the amended theorem at the table holding PED007: the next
issued id is `PED` `pad3 8` = PED008, strictly above the stored 7. -/
theorem c3_witness :
    (parseAll (fun s => searchNum "PED".toList s.toList)
      (dbPED7.pedidos.map (fun r => r.numeroPedido)) = some [7] ∧
     (addPedidoMultiple envAna dbPED7 "Ana" [⟨"X1", 1, 10⟩] "" "f"
       true).1.1 = true) ∧
    ((addPedidoMultiple envAna dbPED7 "Ana" [⟨"X1", 1, 10⟩] "" "f"
       true).1.2 = "PED" ++ pad3 ([7].foldl max 0 + 1) ∧
     ∀ n ∈ [7], n < [7].foldl max 0 + 1) :=
  ⟨⟨by decide, by decide⟩,
   c3_greater_than_current_table envAna dbPED7 "Ana" [⟨"X1", 1, 10⟩] "" "f"
     true [7] (by decide) (by decide)⟩

/-! ### C5 — the `next_id` formula -/

/-- Modelled from the spec: `next_id` "reads all identifiers in `table`
matching `^{prefix}(\d+)$`" — an ANCHORED full match.  Used to compare the
spec's formula with the code's unanchored, all-or-nothing extraction. -/
def parseAnchored (pre s : String) : Option ℕ :=
  if pre.toList.isPrefixOf s.toList ∧ s.toList.drop pre.toList.length ≠ [] ∧
      (s.toList.drop pre.toList.length).all Char.isDigit
  then some (natOfDigits (s.toList.drop pre.toList.length)) else none

/-- Modelled from the spec: result = `prefix + zero_pad(max(matched) + 1, 3)`
over the identifiers matching `^{prefix}(\d+)$`, `prefix ++ "001"` when no
identifier matches. -/
def nextIdSpec (pre : String) (ids : List String) : String :=
  if ids.filterMap (parseAnchored pre) = [] then pre ++ "001"
  else pre ++ pad3 ((ids.filterMap (parseAnchored pre)).foldl max 0 + 1)

/-- Rows differing from PED007 only in their identifier. -/
def rowPED005 : PedidoRow := { rowPED007 with numeroPedido := "PED005" }

/-- A stored row whose identifier matches no `PED(\d+)` pattern. -/
def rowXYZ : PedidoRow := { rowPED007 with numeroPedido := "XYZ" }

/-- C5 counterexample: on the table `[PED005, XYZ]` the spec formula ignores
the unmatched identifier and yields PED006, but the code's
`_get_next_pedido_number` — whose `.astype(int)` raises on the NaN produced
for "XYZ" — falls into the `except` branch and returns PED001. -/
theorem c5_counterexample :
    nextPedidoNumber [rowPED005, rowXYZ] = "PED001" ∧
    nextIdSpec "PED" ([rowPED005, rowXYZ].map (fun r => r.numeroPedido)) =
      "PED006" ∧
    nextPedidoNumber [rowPED005, rowXYZ] ≠
      nextIdSpec "PED" ([rowPED005, rowXYZ].map (fun r => r.numeroPedido)) :=
  ⟨by decide, by decide, by decide⟩

lemma leadDigits_of_all (l : List Char) (h : l.all Char.isDigit = true) :
    leadDigits l = l := by
  induction l with
  | nil => rfl
  | cons c cs ih =>
    rw [List.all_cons, Bool.and_eq_true] at h
    rw [leadDigits, if_pos h.1, ih h.2]

lemma searchNum_of_anchored (pre s : String) (n : ℕ)
    (h : parseAnchored pre s = some n) :
    searchNum pre.toList s.toList = some n := by
  rw [parseAnchored] at h
  split at h
  case isFalse => exact absurd h (by simp)
  case isTrue hc =>
    obtain ⟨hpre, hne, hdig⟩ := hc
    obtain ⟨t, ht⟩ := List.isPrefixOf_iff_prefix.1 hpre
    rw [← ht, List.drop_left] at hne hdig h
    rw [← ht]
    cases hpt : pre.toList ++ t with
    | nil =>
      rcases List.append_eq_nil.1 hpt with ⟨-, rfl⟩
      exact absurd rfl hne
    | cons c cs =>
      rw [searchNum, if_pos (List.isPrefixOf_iff_prefix.2 ⟨t, hpt⟩)]
      rw [← hpt, List.drop_left, leadDigits_of_all t hdig, if_neg hne]
      exact h

lemma parseAll_mono (f g : String → Option ℕ) (ids : List String)
    (ns : List ℕ) (hfg : ∀ s n, f s = some n → g s = some n)
    (h : parseAll f ids = some ns) : parseAll g ids = some ns := by
  induction ids generalizing ns with
  | nil => simpa [parseAll] using h
  | cons i is ih =>
    rw [parseAll] at h ⊢
    cases hf : f i with
    | none => rw [hf] at h; exact absurd h (by simp)
    | some m =>
      rw [hf] at h
      cases hrest : parseAll f is with
      | none => rw [hrest] at h; exact absurd h (by simp)
      | some ms =>
        rw [hrest] at h
        rw [hfg i m hf, ih ms hrest]
        exact h

lemma filterMap_of_parseAll (f : String → Option ℕ) (ids : List String)
    (ns : List ℕ) (h : parseAll f ids = some ns) : ids.filterMap f = ns := by
  induction ids generalizing ns with
  | nil => simpa [parseAll] using h.symm
  | cons i is ih =>
    rw [parseAll] at h
    cases hf : f i with
    | none => rw [hf] at h; exact absurd h (by simp)
    | some m =>
      rw [hf] at h
      cases hrest : parseAll f is with
      | none => rw [hrest] at h; exact absurd h (by simp)
      | some ms =>
        rw [hrest] at h
        obtain rfl : m :: ms = ns := by simpa using h
        simp [List.filterMap_cons, hf, ih ms hrest]

lemma parseAll_ne_nil (f : String → Option ℕ) (i : String) (is : List String)
    (ns : List ℕ) (h : parseAll f (i :: is) = some ns) : ns ≠ [] := by
  rw [parseAll] at h
  cases hf : f i with
  | none => rw [hf] at h; exact absurd h (by simp)
  | some m =>
    rw [hf] at h
    cases hrest : parseAll f is with
    | none => rw [hrest] at h; exact absurd h (by simp)
    | some ms =>
      rw [hrest] at h
      obtain rfl : m :: ms = ns := by simpa using h
      simp

/-- C5 (amended): on the empty table `next_id` returns `prefix ++ "001"`;
when EVERY identifier in the (non-empty) table matches `^prefix(\d+)$` the
code agrees with the spec formula `prefix + zero_pad(max + 1, 3)`; but when
any identifier fails to produce a `prefix(\d+)` match, the whole extraction
raises and the code returns `prefix ++ "001"` instead of ignoring the
unmatched identifiers as the spec prescribes. -/
theorem c5_next_id_formula :
    (∀ pre : String, nextIdFrom pre [] = pre ++ "001") ∧
    (∀ (pre : String) (ids : List String) (ns : List ℕ),
      parseAll (parseAnchored pre) ids = some ns → ids ≠ [] →
      nextIdFrom pre ids = nextIdSpec pre ids ∧
      nextIdSpec pre ids = pre ++ pad3 (ns.foldl max 0 + 1)) ∧
    (∀ (pre : String) (ids : List String),
      parseAll (fun s => searchNum pre.toList s.toList) ids = none →
      nextIdFrom pre ids = pre ++ "001") := by
  refine ⟨fun pre => by rw [nextIdFrom]; simp, ?_, ?_⟩
  · intro pre ids ns h hne
    have hs : parseAll (fun s => searchNum pre.toList s.toList) ids =
        some ns :=
      parseAll_mono (parseAnchored pre) _ ids ns
        (fun s n hsn => searchNum_of_anchored pre s n hsn) h
    have hfm : ids.filterMap (parseAnchored pre) = ns :=
      filterMap_of_parseAll _ ids ns h
    have hnsne : ns ≠ [] := by
      cases ids with
      | nil => exact absurd rfl hne
      | cons i is => exact parseAll_ne_nil _ i is ns h
    constructor
    · rw [nextIdFrom_of_parse pre ids ns hs, nextIdSpec, hfm, if_neg hnsne]
    · rw [nextIdSpec, hfm, if_neg hnsne]
  · intro pre ids h
    cases ids with
    | nil => rw [nextIdFrom]; simp
    | cons i is => rw [nextIdFrom, if_neg (by simp), h]

/-- C5 witness: the amended theorem at the all-matching table `["PED005"]`
(code and spec agree on PED006) and at the table `["XYZ"]` (extraction fails,
code returns PED001). -/
theorem c5_witness :
    (parseAll (parseAnchored "PED") ["PED005"] = some [5] ∧
     (["PED005"] : List String) ≠ [] ∧
     nextIdFrom "PED" ["PED005"] = nextIdSpec "PED" ["PED005"] ∧
     nextIdSpec "PED" ["PED005"] = "PED" ++ pad3 ([5].foldl max 0 + 1)) ∧
    (parseAll (fun s => searchNum "PED".toList s.toList) ["XYZ"] = none ∧
     nextIdFrom "PED" ["XYZ"] = "PED" ++ "001") :=
  ⟨⟨by decide, by decide,
    c5_next_id_formula.2.1 "PED" ["PED005"] [5] (by decide) (by decide)⟩,
   by decide, c5_next_id_formula.2.2 "PED" ["XYZ"] (by decide)⟩

/-! ### C4 — hide / restore and the client balance -/

lemma ocultarPedido_of_mem (db : DB) (n : String)
    (h : ∃ r ∈ db.pedidos, r.numeroPedido = n) :
    ocultarPedido db n =
      (true, { db with pedidos := db.pedidos.map (hidePedidoRow n) }) := by
  obtain ⟨r, hr, hrn⟩ := h
  have hne : db.pedidos ≠ [] := List.ne_nil_of_mem hr
  have hany : db.pedidos.any (fun r => r.numeroPedido = n) = true := by
    rw [List.any_eq_true]
    exact ⟨r, hr, by simp [hrn]⟩
  simp [ocultarPedido, hne, hany]

lemma ocultarPago_of_mem (db : DB) (n : String)
    (h : ∃ p ∈ db.pagos, p.numeroPago = n) :
    ocultarPago db n =
      (true, { db with pagos := db.pagos.map (hidePagoRow n) }) := by
  obtain ⟨p, hp, hpn⟩ := h
  have hne : db.pagos ≠ [] := List.ne_nil_of_mem hp
  have hany : db.pagos.any (fun p => p.numeroPago = n) = true := by
    rw [List.any_eq_true]
    exact ⟨p, hp, by simp [hpn]⟩
  simp [ocultarPago, hne, hany]

lemma hide_pedido_sum_split (l : List PedidoRow) (n c : String)
    (hvis : ∀ r ∈ l, r.numeroPedido = n →
      r.estadoVisualizacion = "Visible") :
    ((((l.map (hidePedidoRow n)).filter (fun r => r.cliente = c)).filter
        (fun r => r.estadoVisualizacion = "Visible")).map
        (fun r => r.precioTotal)).sum +
      ((l.filter (fun r => r.numeroPedido = n ∧ r.cliente = c)).map
        (fun r => r.precioTotal)).sum =
      (((l.filter (fun r => r.cliente = c)).filter
        (fun r => r.estadoVisualizacion = "Visible")).map
        (fun r => r.precioTotal)).sum := by
  induction l with
  | nil => simp
  | cons r rs ih =>
    have ihh := ih (fun x hx hxn => hvis x (List.mem_cons_of_mem r hx) hxn)
    by_cases hn : r.numeroPedido = n
    · have hv : r.estadoVisualizacion = "Visible" :=
        hvis r (List.mem_cons_self r rs) hn
      by_cases hc : r.cliente = c
      · simp only [List.map_cons, hidePedidoRow, if_pos hn, List.filter_cons]
        simp [hn, hc, hv, -List.filter_filter] at ihh ⊢; linarith [ihh]
      · simp only [List.map_cons, hidePedidoRow, if_pos hn, List.filter_cons]
        simp [hn, hc, hv, -List.filter_filter] at ihh ⊢; linarith [ihh]
    · by_cases hc : r.cliente = c
      · by_cases hv : r.estadoVisualizacion = "Visible"
        · simp only [List.map_cons, hidePedidoRow, if_neg hn,
            List.filter_cons]
          simp [hn, hc, hv, -List.filter_filter] at ihh ⊢; linarith [ihh]
        · simp only [List.map_cons, hidePedidoRow, if_neg hn,
            List.filter_cons]
          simp [hn, hc, hv, -List.filter_filter] at ihh ⊢; linarith [ihh]
      · simp only [List.map_cons, hidePedidoRow, if_neg hn, List.filter_cons]
        simp [hn, hc, -List.filter_filter] at ihh ⊢; linarith [ihh]

lemma hide_pago_sum_split (l : List PagoRow) (n c : String)
    (hvis : ∀ p ∈ l, p.numeroPago = n → p.estadoVisualizacion = "Visible") :
    ((((l.map (hidePagoRow n)).filter (fun p => p.cliente = c)).filter
        (fun p => p.estadoVisualizacion = "Visible")).map
        (fun p => p.montoPago)).sum +
      ((l.filter (fun p => p.numeroPago = n ∧ p.cliente = c)).map
        (fun p => p.montoPago)).sum =
      (((l.filter (fun p => p.cliente = c)).filter
        (fun p => p.estadoVisualizacion = "Visible")).map
        (fun p => p.montoPago)).sum := by
  induction l with
  | nil => simp
  | cons p ps ih =>
    have ihh := ih (fun x hx hxn => hvis x (List.mem_cons_of_mem p hx) hxn)
    by_cases hn : p.numeroPago = n
    · have hv : p.estadoVisualizacion = "Visible" :=
        hvis p (List.mem_cons_self p ps) hn
      by_cases hc : p.cliente = c
      · simp only [List.map_cons, hidePagoRow, if_pos hn, List.filter_cons]
        simp [hn, hc, hv, -List.filter_filter] at ihh ⊢; linarith [ihh]
      · simp only [List.map_cons, hidePagoRow, if_pos hn, List.filter_cons]
        simp [hn, hc, hv, -List.filter_filter] at ihh ⊢; linarith [ihh]
    · by_cases hc : p.cliente = c
      · by_cases hv : p.estadoVisualizacion = "Visible"
        · simp only [List.map_cons, hidePagoRow, if_neg hn, List.filter_cons]
          simp [hn, hc, hv, -List.filter_filter] at ihh ⊢; linarith [ihh]
        · simp only [List.map_cons, hidePagoRow, if_neg hn, List.filter_cons]
          simp [hn, hc, hv, -List.filter_filter] at ihh ⊢; linarith [ihh]
      · simp only [List.map_cons, hidePagoRow, if_neg hn, List.filter_cons]
        simp [hn, hc, -List.filter_filter] at ihh ⊢; linarith [ihh]

lemma show_hide_pedido_id (l : List PedidoRow) (n : String)
    (hvis : ∀ r ∈ l, r.numeroPedido = n →
      r.estadoVisualizacion = "Visible") :
    (l.map (hidePedidoRow n)).map (showPedidoRow n) = l := by
  induction l with
  | nil => rfl
  | cons r rs ih =>
    have ihh := ih (fun x hx hxn => hvis x (List.mem_cons_of_mem r hx) hxn)
    by_cases hn : r.numeroPedido = n
    · have hv : r.estadoVisualizacion = "Visible" :=
        hvis r (List.mem_cons_self r rs) hn
      simp only [List.map_cons, hidePedidoRow, showPedidoRow, if_pos hn, ihh]
      cases r
      simp_all
    · simp only [List.map_cons, hidePedidoRow, showPedidoRow, if_neg hn, ihh]

lemma show_hide_pago_id (l : List PagoRow) (n : String)
    (hvis : ∀ p ∈ l, p.numeroPago = n → p.estadoVisualizacion = "Visible") :
    (l.map (hidePagoRow n)).map (showPagoRow n) = l := by
  induction l with
  | nil => rfl
  | cons p ps ih =>
    have ihh := ih (fun x hx hxn => hvis x (List.mem_cons_of_mem p hx) hxn)
    by_cases hn : p.numeroPago = n
    · have hv : p.estadoVisualizacion = "Visible" :=
        hvis p (List.mem_cons_self p ps) hn
      simp only [List.map_cons, hidePagoRow, showPagoRow, if_pos hn, ihh]
      cases p
      simp_all
    · simp only [List.map_cons, hidePagoRow, showPagoRow, if_neg hn, ihh]

/-- A stored, visible payment row PAG001 of 5 for "Ana". -/
def pago5 : PagoRow := pagoRow "f" "PAG001" "Ana" "" "" 5 ""

/-- A table with one visible order line (PED007, total 10) and one visible
payment (PAG001, amount 5), both for "Ana". -/
def dbVis : DB := { pedidos := [rowPED007], pagos := [pago5] }

/-- C4: for a record whose rows are all visible, hiding it removes exactly its
totals from the visible per-client sums (orders and payments alike), the
"Mostrar" restore returns the state to exactly the original tables — so the
record reappears in the sums — and consequently `get_client_balance` after
hide-then-restore is unchanged. -/
theorem c4_hide_restore_balance (db : DB) (nPed nPag cliente : String)
    (hPedEx : ∃ r ∈ db.pedidos, r.numeroPedido = nPed)
    (hPedVis : ∀ r ∈ db.pedidos, r.numeroPedido = nPed →
      r.estadoVisualizacion = "Visible")
    (hPagEx : ∃ p ∈ db.pagos, p.numeroPago = nPag)
    (hPagVis : ∀ p ∈ db.pagos, p.numeroPago = nPag →
      p.estadoVisualizacion = "Visible") :
    (ocultarPedido db nPed).1 = true ∧
    (ocultarPago db nPag).1 = true ∧
    ((getClientPedidos (ocultarPedido db nPed).2 cliente false).map
      (fun r => r.precioTotal)).sum =
      ((getClientPedidos db cliente false).map (fun r => r.precioTotal)).sum -
        ((db.pedidos.filter (fun r => r.numeroPedido = nPed ∧
          r.cliente = cliente)).map (fun r => r.precioTotal)).sum ∧
    ((getClientPagos (ocultarPago db nPag).2 cliente false).map
      (fun p => p.montoPago)).sum =
      ((getClientPagos db cliente false).map (fun p => p.montoPago)).sum -
        ((db.pagos.filter (fun p => p.numeroPago = nPag ∧
          p.cliente = cliente)).map (fun p => p.montoPago)).sum ∧
    mostrarPedido (ocultarPedido db nPed).2 nPed = db ∧
    mostrarPago (ocultarPago db nPag).2 nPag = db ∧
    getClientBalance (mostrarPedido (ocultarPedido db nPed).2 nPed) cliente =
      getClientBalance db cliente ∧
    getClientBalance (mostrarPago (ocultarPago db nPag).2 nPag) cliente =
      getClientBalance db cliente := by
  have ePed := ocultarPedido_of_mem db nPed hPedEx
  have ePag := ocultarPago_of_mem db nPag hPagEx
  have hSplitPed := hide_pedido_sum_split db.pedidos nPed cliente hPedVis
  have hSplitPag := hide_pago_sum_split db.pagos nPag cliente hPagVis
  have hShowPed : mostrarPedido (ocultarPedido db nPed).2 nPed = db := by
    rw [ePed]
    show { db with pedidos :=
      (db.pedidos.map (hidePedidoRow nPed)).map (showPedidoRow nPed) } = db
    rw [show_hide_pedido_id db.pedidos nPed hPedVis]
  have hShowPag : mostrarPago (ocultarPago db nPag).2 nPag = db := by
    rw [ePag]
    show { db with pagos :=
      (db.pagos.map (hidePagoRow nPag)).map (showPagoRow nPag) } = db
    rw [show_hide_pago_id db.pagos nPag hPagVis]
  refine ⟨by rw [ePed], by rw [ePag], ?_, ?_, hShowPed, hShowPag,
    by rw [hShowPed], by rw [hShowPag]⟩
  · rw [ePed]
    simp only [getClientPedidos, Bool.false_or]
    exact eq_sub_iff_add_eq.2 hSplitPed
  · rw [ePag]
    simp only [getClientPagos, Bool.false_or]
    exact eq_sub_iff_add_eq.2 hSplitPag

/-- C4 witness: the theorem at the one-order, one-payment table `dbVis`
(order PED007 of 10 and payment PAG001 of 5, both visible, for "Ana"). -/
theorem c4_witness :
    ((∃ r ∈ dbVis.pedidos, r.numeroPedido = "PED007") ∧
     (∀ r ∈ dbVis.pedidos, r.numeroPedido = "PED007" →
       r.estadoVisualizacion = "Visible") ∧
     (∃ p ∈ dbVis.pagos, p.numeroPago = "PAG001") ∧
     (∀ p ∈ dbVis.pagos, p.numeroPago = "PAG001" →
       p.estadoVisualizacion = "Visible")) ∧
    ((ocultarPedido dbVis "PED007").1 = true ∧
     (ocultarPago dbVis "PAG001").1 = true ∧
     ((getClientPedidos (ocultarPedido dbVis "PED007").2 "Ana" false).map
       (fun r => r.precioTotal)).sum =
       ((getClientPedidos dbVis "Ana" false).map
         (fun r => r.precioTotal)).sum -
         ((dbVis.pedidos.filter (fun r => r.numeroPedido = "PED007" ∧
           r.cliente = "Ana")).map (fun r => r.precioTotal)).sum ∧
     ((getClientPagos (ocultarPago dbVis "PAG001").2 "Ana" false).map
       (fun p => p.montoPago)).sum =
       ((getClientPagos dbVis "Ana" false).map (fun p => p.montoPago)).sum -
         ((dbVis.pagos.filter (fun p => p.numeroPago = "PAG001" ∧
           p.cliente = "Ana")).map (fun p => p.montoPago)).sum ∧
     mostrarPedido (ocultarPedido dbVis "PED007").2 "PED007" = dbVis ∧
     mostrarPago (ocultarPago dbVis "PAG001").2 "PAG001" = dbVis ∧
     getClientBalance (mostrarPedido (ocultarPedido dbVis "PED007").2
       "PED007") "Ana" = getClientBalance dbVis "Ana" ∧
     getClientBalance (mostrarPago (ocultarPago dbVis "PAG001").2 "PAG001")
       "Ana" = getClientBalance dbVis "Ana") :=
  ⟨⟨by decide, by decide, by decide, by decide⟩,
   c4_hide_restore_balance dbVis "PED007" "PAG001" "Ana" (by decide)
     (by decide) (by decide) (by decide)⟩

/-! ### C9 — the client balance formula -/

/-- A visible order line for "Ana" whose total is the sub-cent value
1/1000. -/
def rowTiny : PedidoRow :=
  { rowPED007 with numeroPedido := "PED001", precioTotal := 1/1000 }

/-- A table with only that sub-cent line. -/
def dbTiny : DB := { pedidos := [rowTiny], pagos := [] }

/-- C9 counterexample: with a single visible order line of total 1/1000 the
sum of visible line totals is 1/1000, but `get_client_balance` rounds to two
decimals and returns 0 for `total_deuda` — so the returned `total_orders`
does not equal the sum of the visible line totals. -/
theorem c9_counterexample :
    ((getClientPedidos dbTiny "Ana" false).map
      (fun r => r.precioTotal)).sum = 1/1000 ∧
    getClientBalance dbTiny "Ana" = (0, 0, 0) ∧
    ((1 : ℚ)/1000) ≠ 0 := by
  refine ⟨?_, ?_, by norm_num⟩
  · simp [getClientPedidos, dbTiny, rowTiny, rowPED007]
  · simp [getClientBalance, getClientPedidos, getClientPagos, dbTiny,
      rowTiny, rowPED007, round2]
    norm_num [round_eq]

lemma round2_cents (z : ℤ) : round2 ((z : ℚ)/100) = (z : ℚ)/100 := by
  rw [round2]
  have h : (100 : ℚ) * ((z : ℚ)/100) = (z : ℚ) := by
    field_simp
  rw [h, round_intCast]

/-- C9 (amended): `get_client_balance` returns the 2-decimal ROUNDINGS:
`total_deuda = round2 (Σ Precio_Total)` over the customer's visible order
lines, `total_pagos = round2 (Σ Monto_Pago)` over the visible payments and
`balance = round2 (Σ Precio_Total - Σ Monto_Pago)`; whenever both sums are
whole-cent values (every really occurring amount), rounding is the identity
and the original claim holds exactly, including
`balance = total_orders - total_payments` with its sign convention. -/
theorem c9_balance_formula (db : DB) (cliente : String)
    (ha : ∃ a : ℤ, ((getClientPedidos db cliente false).map
      (fun r => r.precioTotal)).sum = (a : ℚ)/100)
    (hb : ∃ b : ℤ, ((getClientPagos db cliente false).map
      (fun p => p.montoPago)).sum = (b : ℚ)/100) :
    getClientBalance db cliente =
      (((getClientPedidos db cliente false).map
         (fun r => r.precioTotal)).sum,
       ((getClientPagos db cliente false).map (fun p => p.montoPago)).sum,
       ((getClientPedidos db cliente false).map
         (fun r => r.precioTotal)).sum -
         ((getClientPagos db cliente false).map
           (fun p => p.montoPago)).sum) ∧
    (getClientBalance db cliente).2.2 =
      (getClientBalance db cliente).1 - (getClientBalance db cliente).2.1 := by
  obtain ⟨a, hA⟩ := ha
  obtain ⟨b, hB⟩ := hb
  have e : getClientBalance db cliente =
      (((getClientPedidos db cliente false).map
         (fun r => r.precioTotal)).sum,
       ((getClientPagos db cliente false).map (fun p => p.montoPago)).sum,
       ((getClientPedidos db cliente false).map
         (fun r => r.precioTotal)).sum -
         ((getClientPagos db cliente false).map
           (fun p => p.montoPago)).sum) := by
    rw [getClientBalance]
    rw [hA, hB]
    have h3 : (a : ℚ)/100 - (b : ℚ)/100 = ((a - b : ℤ) : ℚ)/100 := by
      push_cast
      ring
    rw [h3, round2_cents, round2_cents, round2_cents, ← h3]
  refine ⟨e, ?_⟩
  rw [e]

/-- C9 witness: the theorem at `dbVis` (one visible order of 10, one visible
payment of 5): balance 10 − 5 = 5 with no rounding effect. -/
theorem c9_witness :
    ((∃ a : ℤ, ((getClientPedidos dbVis "Ana" false).map
       (fun r => r.precioTotal)).sum = (a : ℚ)/100) ∧
     (∃ b : ℤ, ((getClientPagos dbVis "Ana" false).map
       (fun p => p.montoPago)).sum = (b : ℚ)/100)) ∧
    (getClientBalance dbVis "Ana" =
      (((getClientPedidos dbVis "Ana" false).map
         (fun r => r.precioTotal)).sum,
       ((getClientPagos dbVis "Ana" false).map (fun p => p.montoPago)).sum,
       ((getClientPedidos dbVis "Ana" false).map
         (fun r => r.precioTotal)).sum -
         ((getClientPagos dbVis "Ana" false).map
           (fun p => p.montoPago)).sum) ∧
     (getClientBalance dbVis "Ana").2.2 =
       (getClientBalance dbVis "Ana").1 - (getClientBalance dbVis "Ana").2.1) :=
  ⟨⟨⟨1000, by simp [getClientPedidos, dbVis, rowPED007]; norm_num⟩,
    ⟨500, by simp [getClientPagos, dbVis, pago5, pagoRow]; norm_num⟩⟩,
   c9_balance_formula dbVis "Ana"
     ⟨1000, by simp [getClientPedidos, dbVis, rowPED007]; norm_num⟩
     ⟨500, by simp [getClientPagos, dbVis, pago5, pagoRow]; norm_num⟩⟩

/-! ### C10 — case-insensitive validation, case-sensitive retrieval -/

lemma addPedido_of_valid (env : Env) (db : DB) (cliente codigo : String)
    (precio : ℚ) (com : String) (cant : ℤ) (fecha : String)
    (hc : validateClient env cliente = true)
    (hp : validateProductCode env codigo = true) :
    addPedido env db cliente codigo precio com cant fecha true =
      ((true, nextPedidoNumber db.pedidos),
       { db with pedidos := db.pedidos ++
          [itemRow env fecha (nextPedidoNumber db.pedidos) cliente com
            ⟨codigo, cant, precio⟩] }) := by
  simp [addPedido, hc, hp]

lemma getClientPedidos_append_other (db : DB) (rows : List PedidoRow)
    (nameN : String) (h : ∀ r ∈ rows, r.cliente ≠ nameN) (inc : Bool) :
    getClientPedidos { db with pedidos := db.pedidos ++ rows } nameN inc =
      getClientPedidos db nameN inc := by
  rw [getClientPedidos, getClientPedidos]
  show ((db.pedidos ++ rows).filter _).filter _ = _
  rw [List.filter_append]
  have hnil : rows.filter (fun r => r.cliente = nameN) = [] := by
    rw [List.filter_eq_nil_iff]
    intro r hr
    simp [h r hr]
  rw [hnil, List.append_nil]

lemma getClientPagos_append_other (db : DB) (rows : List PagoRow)
    (nameN : String) (h : ∀ p ∈ rows, p.cliente ≠ nameN) (inc : Bool) :
    getClientPagos { db with pagos := db.pagos ++ rows } nameN inc =
      getClientPagos db nameN inc := by
  rw [getClientPagos, getClientPagos]
  show ((db.pagos ++ rows).filter _).filter _ = _
  rw [List.filter_append]
  have hnil : rows.filter (fun p => p.cliente = nameN) = [] := by
    rw [List.filter_eq_nil_iff]
    intro p hp
    simp [h p hp]
  rw [hnil, List.append_nil]

/-- C10: for a directory name N and a different spelling S that agrees with N
up to lowercasing, `validate_client` accepts S, so `add_pedido` and
`add_pago` succeed and store their rows with `Cliente = S`; but
`get_client_pedidos`, `get_client_pagos` and `get_client_balance` for N
filter by exact equality on `Cliente`, so none of them sees the rows stored
under S: the N-side query results and balance are unchanged by the writes. -/
theorem c10_case_mismatch (env : Env) (db : DB) (nameN spellS : String)
    (codigo : String) (precio : ℚ) (com : String) (cant : ℤ) (fecha : String)
    (monto : ℚ) (r1 r2 com2 fecha2 : String)
    (hN : nameN ∈ env.clientes) (hlow : lowerStr spellS = lowerStr nameN)
    (hne : spellS ≠ nameN) (hcode : validateProductCode env codigo = true) :
    validateClient env spellS = true ∧
    ((addPedido env db spellS codigo precio com cant fecha true).1.1 = true ∧
     (addPedido env db spellS codigo precio com cant fecha true).2.pedidos =
       db.pedidos ++ [itemRow env fecha (nextPedidoNumber db.pedidos) spellS
         com ⟨codigo, cant, precio⟩] ∧
     (∀ inc, getClientPedidos
        (addPedido env db spellS codigo precio com cant fecha true).2 nameN
        inc = getClientPedidos db nameN inc) ∧
     getClientBalance
       (addPedido env db spellS codigo precio com cant fecha true).2 nameN =
       getClientBalance db nameN) ∧
    ((addPago env db spellS monto r1 r2 com2 fecha2 true).1.1 = true ∧
     (addPago env db spellS monto r1 r2 com2 fecha2 true).2.pagos =
       db.pagos ++ [pagoRow fecha2 (nextPagoNumber db.pagos) spellS r1 r2
         monto com2] ∧
     (∀ inc, getClientPagos
        (addPago env db spellS monto r1 r2 com2 fecha2 true).2 nameN inc =
        getClientPagos db nameN inc) ∧
     getClientBalance (addPago env db spellS monto r1 r2 com2 fecha2 true).2
       nameN = getClientBalance db nameN) := by
  have hvc : validateClient env spellS = true := by
    rw [validateClient, hlow]
    have hm : lowerStr nameN ∈ env.clientes.map (fun c => lowerStr c) :=
      List.mem_map_of_mem _ hN
    simpa using hm
  have ePed := addPedido_of_valid env db spellS codigo precio com cant fecha
    hvc hcode
  have ePag := addPago_of_valid env db spellS monto r1 r2 com2 fecha2 hvc
  have hrowPed : ∀ r ∈ [itemRow env fecha (nextPedidoNumber db.pedidos)
      spellS com ⟨codigo, cant, precio⟩], r.cliente ≠ nameN := by
    intro r hr
    rw [List.mem_singleton] at hr
    subst hr
    simpa [itemRow] using hne
  have hrowPag : ∀ p ∈ [pagoRow fecha2 (nextPagoNumber db.pagos) spellS r1 r2
      monto com2], p.cliente ≠ nameN := by
    intro p hp
    rw [List.mem_singleton] at hp
    subst hp
    simpa [pagoRow] using hne
  refine ⟨hvc, ⟨by rw [ePed], by rw [ePed], ?_, ?_⟩,
    by rw [ePag], by rw [ePag], ?_, ?_⟩
  · intro inc
    rw [ePed]
    exact getClientPedidos_append_other db _ nameN hrowPed inc
  · rw [ePed, getClientBalance, getClientBalance,
      getClientPedidos_append_other db _ nameN hrowPed false]
    rfl
  · intro inc
    rw [ePag]
    exact getClientPagos_append_other db _ nameN hrowPag inc
  · rw [ePag, getClientBalance, getClientBalance,
      getClientPagos_append_other db _ nameN hrowPag false]
    rfl

/-- C10 witness: the directory name "Ana" and the spelling "ana": both writes
succeed under "ana" and the queries for "Ana" are unaffected. -/
theorem c10_witness :
    ("Ana" ∈ envAna.clientes ∧ lowerStr "ana" = lowerStr "Ana" ∧
     "ana" ≠ "Ana" ∧ validateProductCode envAna "X1" = true) ∧
    (validateClient envAna "ana" = true ∧
     ((addPedido envAna dbVis "ana" "X1" 10 "" 1 "f" true).1.1 = true ∧
      (addPedido envAna dbVis "ana" "X1" 10 "" 1 "f" true).2.pedidos =
        dbVis.pedidos ++ [itemRow envAna "f"
          (nextPedidoNumber dbVis.pedidos) "ana" "" ⟨"X1", 1, 10⟩] ∧
      (∀ inc, getClientPedidos
         (addPedido envAna dbVis "ana" "X1" 10 "" 1 "f" true).2 "Ana" inc =
         getClientPedidos dbVis "Ana" inc) ∧
      getClientBalance
        (addPedido envAna dbVis "ana" "X1" 10 "" 1 "f" true).2 "Ana" =
        getClientBalance dbVis "Ana") ∧
     ((addPago envAna dbVis "ana" 3 "" "" "" "g" true).1.1 = true ∧
      (addPago envAna dbVis "ana" 3 "" "" "" "g" true).2.pagos =
        dbVis.pagos ++ [pagoRow "g" (nextPagoNumber dbVis.pagos) "ana" "" ""
          3 ""] ∧
      (∀ inc, getClientPagos
         (addPago envAna dbVis "ana" 3 "" "" "" "g" true).2 "Ana" inc =
         getClientPagos dbVis "Ana" inc) ∧
      getClientBalance (addPago envAna dbVis "ana" 3 "" "" "" "g" true).2
        "Ana" = getClientBalance dbVis "Ana")) :=
  ⟨⟨by decide, by decide, by decide, by decide⟩,
   c10_case_mismatch envAna dbVis "Ana" "ana" "X1" 10 "" 1 "f" 3 "" "" "" "g"
     (by decide) (by decide) (by decide) (by decide)⟩
